import Mathlib

/-!
Shallow embedding of the deadpool-oracle crate (src/src/lib.rs): a connection
pool adapter binding the external oracle driver to the external deadpool
engine.  The crate itself consists of the connection manager (create and
recycle hooks), the pool configuration builder, and thin error adapters.

The two external collaborators are modelled at their interface boundary:
the driver connection is represented by the outcomes of the operations the
crate observes on it, and the pool engine by the contract the specification
states for it (capacity-validated construction of an initially empty pool).
-/

/-- Errors of the external oracle driver, abstracted to their identity: the
crate never inspects a driver error, it only forwards or wraps it. -/
structure Error where
  msg : String
deriving DecidableEq, Repr

instance {ε α : Type} [DecidableEq ε] [DecidableEq α] :
    DecidableEq (Except ε α) := fun x y =>
  match x, y with
  | Except.ok a, Except.ok b =>
      if h : a = b then isTrue (by rw [h]) else isFalse (by simp [h])
  | Except.error e, Except.error f =>
      if h : e = f then isTrue (by rw [h]) else isFalse (by simp [h])
  | Except.ok _, Except.error _ => isFalse (by simp)
  | Except.error _, Except.ok _ => isFalse (by simp)

/-- Modelled from the spec: the driver connection, external to this crate, as
the crate observes it during recycling — its open/closed status and the
outcomes the driver would report for the rollback and ping round-trips the
recycle hook issues. -/
structure Connection where
  is_closed : Bool
  rollbackResult : Except Error Unit
  pingResult : Except Error Unit
deriving DecidableEq, Repr

/-- Immutable connection configuration (host, port, service name,
credentials), mirroring `oracle_rs::Config::new`. -/
structure Config where
  host : String
  port : Nat
  service : String
  username : String
  password : String
deriving DecidableEq, Repr

/-- Rust `Clone` on the plain configuration struct: a value copy. -/
def Config.clone (c : Config) : Config := c

/-- `std::time::Duration`, by its seconds (the crate only ever builds whole
second values via `Duration::from_secs`). -/
structure Duration where
  secs : Nat
deriving DecidableEq, Repr

/-- `Duration::from_secs`. -/
def Duration.from_secs (s : Nat) : Duration := ⟨s⟩

/-- The deadpool recycle error: a free-form message or a wrapped backend
error, mirroring `deadpool::managed::RecycleError`. -/
inductive RecycleError (E : Type) where
  | Message : String → RecycleError E
  | Backend : E → RecycleError E
deriving DecidableEq, Repr

/-- `RecycleError::message`, the constructor used for the liveness failure. -/
def RecycleError.message {E : Type} (s : String) : RecycleError E :=
  RecycleError.Message s

/-- `deadpool::managed::RecycleResult`. -/
def RecycleResult (E : Type) : Type := Except (RecycleError E) Unit

instance {E : Type} [DecidableEq E] : DecidableEq (RecycleResult E) :=
  inferInstanceAs (DecidableEq (Except (RecycleError E) Unit))

/-- The driver round-trips the recycle hook can issue on a connection; the
hook returns the list of those it actually issued, in order, alongside its
result, so that effect claims (what ran, what was skipped) are statable. -/
inductive ConnOp where
  | rollback
  | ping
deriving DecidableEq, Repr

/-- The connection manager: holds the immutable configuration. -/
structure OracleConnectionManager where
  config : Config
deriving DecidableEq, Repr

/-- `OracleConnectionManager::new`. -/
def OracleConnectionManager.new (config : Config) : OracleConnectionManager :=
  { config := config }

/-- `Manager::create` for the oracle manager: one call to the external
`Connection::connect_with_config` (passed in as a parameter, since the driver
is outside the crate) on a clone of the stored configuration, whose result is
returned verbatim.  The second component records every establishment attempt
(the configuration it used), so that the single-attempt claim is statable. -/
def OracleConnectionManager.create
    (connect_with_config : Config → Except Error Connection)
    (self : OracleConnectionManager) :
    Except Error Connection × List Config :=
  (connect_with_config self.config.clone, [self.config.clone])

/-- `Manager::recycle` for the oracle manager, translated from the source:

1. if `conn.is_closed()` return `Err(RecycleError::message("connection closed"))`;
2. `conn.rollback().await.ok();` — issue the rollback, discard its outcome;
3. `conn.ping().await.map_err(RecycleError::Backend)?;` then `Ok(())`.

Returns the recycle result together with the trace of driver round-trips
issued, in order. -/
def OracleConnectionManager.recycle (conn : Connection) :
    RecycleResult Error × List ConnOp :=
  if conn.is_closed then
    (Except.error (RecycleError.message "connection closed"), [])
  else
    let _discarded : Except Error Unit := conn.rollbackResult
    match conn.pingResult with
    | Except.ok _ => (Except.ok (), [ConnOp.rollback, ConnOp.ping])
    | Except.error e =>
        (Except.error (RecycleError.Backend e), [ConnOp.rollback, ConnOp.ping])

namespace managed

/-- `deadpool::managed::Timeouts`: the three pool timeouts; `none` means wait
indefinitely. -/
structure Timeouts where
  wait : Option Duration
  create : Option Duration
  recycle : Option Duration
deriving DecidableEq, Repr

/-- The async runtime handed to the engine; the crate always selects Tokio. -/
inductive Runtime where
  | Tokio1
deriving DecidableEq, Repr

/-- The engine-side build failure (the crate wraps it in its own
`BuildError`).  Modelled from the spec: the engine rejects only an invalid
policy, e.g. an invalid capacity. -/
inductive BuildError where
  | invalidCapacity
deriving DecidableEq, Repr

/-- Modelled from the spec: the external deadpool pool handle, at the
interface boundary this crate relies on — the bound policy plus the status
the engine reports (current size and idle count) and a count of creation-hook
invocations, which together let the lazy-construction claims be stated. -/
structure Pool where
  manager : OracleConnectionManager
  max_size : Nat
  runtime : Runtime
  timeouts : Timeouts
  size : Nat
  available : Nat
  createCalls : Nat
deriving DecidableEq, Repr

/-- Modelled from the spec: the engine constructs the pool from the policy
alone — it validates the policy (capacity must be at least 1), contacts no
database, invokes the creation hook zero times, and returns a pool whose
reported size and idle count are both 0. -/
def poolBuild (manager : OracleConnectionManager) (max_size : Nat)
    (runtime : Runtime) (timeouts : Timeouts) : Except BuildError Pool :=
  if max_size = 0 then
    Except.error BuildError.invalidCapacity
  else
    Except.ok
      { manager := manager, max_size := max_size, runtime := runtime,
        timeouts := timeouts, size := 0, available := 0, createCalls := 0 }

end managed

/-- The crate-level `BuildError`, a newtype over the engine build error. -/
structure BuildError where
  err : managed.BuildError
deriving DecidableEq, Repr

/-- `PoolBuilder`: accumulated policy settings plus the connection
configuration. -/
structure PoolBuilder where
  config : Config
  max_size : Nat
  wait_timeout : Option Duration
  create_timeout : Option Duration
  recycle_timeout : Option Duration
deriving DecidableEq, Repr

/-- `num_cpus`: `std::thread::available_parallelism().map(|p| p.get()).unwrap_or(4)`.
The environment call is external, so its result is a parameter: `some p`
with `p` a positive count on success (`NonZeroUsize` is never zero), `none`
on detection failure. -/
def num_cpus (available_parallelism : Option { n : Nat // 0 < n }) : Nat :=
  match available_parallelism with
  | some p => p.val
  | none => 4

/-- `PoolBuilder::new`: defaults are capacity `num_cpus() * 4`, wait and
create timeouts 30 seconds, recycle timeout 5 seconds.  The detected
parallelism is threaded through as a parameter. -/
def PoolBuilder.new (config : Config)
    (available_parallelism : Option { n : Nat // 0 < n }) : PoolBuilder :=
  { config := config,
    max_size := num_cpus available_parallelism * 4,
    wait_timeout := some (Duration.from_secs 30),
    create_timeout := some (Duration.from_secs 30),
    recycle_timeout := some (Duration.from_secs 5) }

/-- `PoolBuilder::max_size` (named with a `set_` marker because the record
field already carries the source name): overwrite the capacity, touch nothing
else, accept any value. -/
def PoolBuilder.set_max_size (self : PoolBuilder) (size : Nat) : PoolBuilder :=
  { self with max_size := size }

/-- `PoolBuilder::wait_timeout` setter. -/
def PoolBuilder.set_wait_timeout (self : PoolBuilder)
    (timeout : Option Duration) : PoolBuilder :=
  { self with wait_timeout := timeout }

/-- `PoolBuilder::create_timeout` setter. -/
def PoolBuilder.set_create_timeout (self : PoolBuilder)
    (timeout : Option Duration) : PoolBuilder :=
  { self with create_timeout := timeout }

/-- `PoolBuilder::recycle_timeout` setter. -/
def PoolBuilder.set_recycle_timeout (self : PoolBuilder)
    (timeout : Option Duration) : PoolBuilder :=
  { self with recycle_timeout := timeout }

/-- `PoolBuilder::build`: hand the manager, the capacity, the Tokio runtime
and the three timeouts to the engine, wrapping an engine rejection in the
crate `BuildError`.  All engine options are set explicitly at this one call
site, so the engine call is modelled as a single function of them. -/
def PoolBuilder.build (self : PoolBuilder) : Except BuildError managed.Pool :=
  Except.mapError BuildError.mk
    (managed.poolBuild (OracleConnectionManager.new self.config) self.max_size
      managed.Runtime.Tokio1
      { wait := self.wait_timeout, create := self.create_timeout,
        recycle := self.recycle_timeout })

/-- `ConfigExt::into_pool`. -/
def Config.into_pool (self : Config)
    (available_parallelism : Option { n : Nat // 0 < n }) :
    Except BuildError managed.Pool :=
  (PoolBuilder.new self available_parallelism).build

/-- `ConfigExt::into_pool_with_size`. -/
def Config.into_pool_with_size (self : Config) (max_size : Nat)
    (available_parallelism : Option { n : Nat // 0 < n }) :
    Except BuildError managed.Pool :=
  ((PoolBuilder.new self available_parallelism).set_max_size max_size).build

/-- The pool value the engine returns for a builder whose policy it accepts:
the bound policy with reported size 0, idle count 0 and zero creation-hook
invocations. -/
def builtPool (b : PoolBuilder) : managed.Pool :=
  { manager := { config := b.config }, max_size := b.max_size,
    runtime := managed.Runtime.Tokio1,
    timeouts := { wait := b.wait_timeout, create := b.create_timeout,
                  recycle := b.recycle_timeout },
    size := 0, available := 0, createCalls := 0 }

/-- Concrete configuration for witnesses, mirroring the unit tests. -/
def cfg0 : Config := ⟨"localhost", 1521, "FREEPDB1", "test", "test"⟩

/-- Closed connection for the liveness-failure witness. -/
def connClosed : Connection := ⟨true, Except.ok (), Except.ok ()⟩

/-- A driver error used by the witnesses. -/
def err0 : Error := ⟨"ORA-03113"⟩

/-- Open connection whose rollback fails but whose ping succeeds. -/
def connOpen : Connection := ⟨false, Except.error err0, Except.ok ()⟩

/-- Open connection whose ping fails. -/
def connPingFail : Connection := ⟨false, Except.ok (), Except.error err0⟩

/-- C1: a connection that reports itself closed makes recycle fail
immediately with reason "connection closed"; no rollback and no ping are
issued on it. -/
theorem recycle_closed_fails_immediately (conn : Connection)
    (h : conn.is_closed = true) :
    (OracleConnectionManager.recycle conn).1
        = Except.error (RecycleError.message "connection closed") ∧
    ConnOp.rollback ∉ (OracleConnectionManager.recycle conn).2 ∧
    ConnOp.ping ∉ (OracleConnectionManager.recycle conn).2 := by
  simp [OracleConnectionManager.recycle, h]

/-- Witness for C1 at a concrete closed connection. -/
theorem recycle_closed_fails_immediately_witness :
    (OracleConnectionManager.recycle connClosed).1
        = Except.error (RecycleError.message "connection closed") ∧
    ConnOp.rollback ∉ (OracleConnectionManager.recycle connClosed).2 ∧
    ConnOp.ping ∉ (OracleConnectionManager.recycle connClosed).2 :=
  recycle_closed_fails_immediately connClosed rfl

/-- C2: on a connection that is not closed, a rollback attempt is always
issued, and before the ping; the recycle result does not depend on the
outcome of that rollback attempt. -/
theorem recycle_rollback_attempted_and_ignored (conn : Connection)
    (r1 r2 : Except Error Unit) (h : conn.is_closed = false) :
    (OracleConnectionManager.recycle conn).2
        = [ConnOp.rollback, ConnOp.ping] ∧
    (OracleConnectionManager.recycle { conn with rollbackResult := r1 }).1
      = (OracleConnectionManager.recycle { conn with rollbackResult := r2 }).1 := by
  cases hp : conn.pingResult <;>
    simp [OracleConnectionManager.recycle, h, hp]

/-- Witness for C2: a failing rollback and a succeeding one give the same
recycle result on a live connection. -/
theorem recycle_rollback_attempted_and_ignored_witness :
    (OracleConnectionManager.recycle connOpen).2
        = [ConnOp.rollback, ConnOp.ping] ∧
    (OracleConnectionManager.recycle
        { connOpen with rollbackResult := Except.error err0 }).1
      = (OracleConnectionManager.recycle
          { connOpen with rollbackResult := Except.ok () }).1 :=
  recycle_rollback_attempted_and_ignored connOpen
    (Except.error err0) (Except.ok ()) rfl

/-- C3: on a connection that is not closed, recycle succeeds exactly when the
ping succeeds, and a ping failure is returned wrapped as the backend cause. -/
theorem recycle_ping_decides_outcome (conn : Connection) (e : Error)
    (h : conn.is_closed = false) :
    ((OracleConnectionManager.recycle conn).1 = Except.ok () ↔
      conn.pingResult = Except.ok ()) ∧
    (conn.pingResult = Except.error e →
      (OracleConnectionManager.recycle conn).1
        = Except.error (RecycleError.Backend e)) := by
  cases hp : conn.pingResult with
  | ok u =>
      cases u
      simp [OracleConnectionManager.recycle, h, hp]
  | error f =>
      constructor
      · simp [OracleConnectionManager.recycle, h, hp]
      · intro he
        injection he with hfe
        subst hfe
        simp [OracleConnectionManager.recycle, h, hp]

/-- Witness for C3 at a live connection whose ping fails. -/
theorem recycle_ping_decides_outcome_witness :
    ((OracleConnectionManager.recycle connPingFail).1 = Except.ok () ↔
      connPingFail.pingResult = Except.ok ()) ∧
    (connPingFail.pingResult = Except.error err0 →
      (OracleConnectionManager.recycle connPingFail).1
        = Except.error (RecycleError.Backend err0)) :=
  recycle_ping_decides_outcome connPingFail err0 rfl

/-- C4: with no overrides the policy is capacity `num_cpus * 4` (16 when
detection fails, since the fallback unit count is 4), wait timeout 30 s,
create timeout 30 s, recycle timeout 5 s. -/
theorem pool_builder_defaults (config : Config)
    (ap : Option { n : Nat // 0 < n }) :
    (PoolBuilder.new config ap).max_size = num_cpus ap * 4 ∧
    (PoolBuilder.new config none).max_size = 16 ∧
    (PoolBuilder.new config ap).wait_timeout
        = some (Duration.from_secs 30) ∧
    (PoolBuilder.new config ap).create_timeout
        = some (Duration.from_secs 30) ∧
    (PoolBuilder.new config ap).recycle_timeout
        = some (Duration.from_secs 5) :=
  ⟨rfl, rfl, rfl, rfl, rfl⟩

/-- C5: build contacts no database and invokes the creation hook zero times:
for every builder whose capacity the engine accepts, it returns a pool whose
reported size, idle count and creation count are all 0. -/
theorem build_is_lazy (b : PoolBuilder) (hb : b.max_size ≠ 0) :
    b.build = Except.ok (builtPool b) ∧
    (builtPool b).size = 0 ∧ (builtPool b).available = 0 ∧
    (builtPool b).createCalls = 0 := by
  refine ⟨?_, rfl, rfl, rfl⟩
  simp [PoolBuilder.build, managed.poolBuild, hb, builtPool,
    OracleConnectionManager.new, Except.mapError]

/-- Witness for C5 at the default builder over a concrete configuration. -/
theorem build_is_lazy_witness :
    (PoolBuilder.new cfg0 none).build
        = Except.ok (builtPool (PoolBuilder.new cfg0 none)) ∧
    (builtPool (PoolBuilder.new cfg0 none)).size = 0 ∧
    (builtPool (PoolBuilder.new cfg0 none)).available = 0 ∧
    (builtPool (PoolBuilder.new cfg0 none)).createCalls = 0 :=
  build_is_lazy (PoolBuilder.new cfg0 none) (by decide)

/-- C6: an explicit "no timeout" override of any of the three timeouts is
preserved verbatim through build: the resulting policy carries `none` for
that timeout. -/
theorem none_timeout_preserved (b : PoolBuilder) (hb : b.max_size ≠ 0) :
    Except.map (fun p => p.timeouts.wait) (b.set_wait_timeout none).build
        = Except.ok none ∧
    Except.map (fun p => p.timeouts.create) (b.set_create_timeout none).build
        = Except.ok none ∧
    Except.map (fun p => p.timeouts.recycle)
        (b.set_recycle_timeout none).build
        = Except.ok none := by
  refine ⟨?_, ?_, ?_⟩ <;>
    simp [PoolBuilder.build, managed.poolBuild, PoolBuilder.set_wait_timeout,
      PoolBuilder.set_create_timeout, PoolBuilder.set_recycle_timeout, hb,
      Except.mapError, Except.map, OracleConnectionManager.new]

/-- Witness for C6 at the default builder over a concrete configuration. -/
theorem none_timeout_preserved_witness :
    Except.map (fun p => p.timeouts.wait)
        ((PoolBuilder.new cfg0 none).set_wait_timeout none).build
        = Except.ok none ∧
    Except.map (fun p => p.timeouts.create)
        ((PoolBuilder.new cfg0 none).set_create_timeout none).build
        = Except.ok none ∧
    Except.map (fun p => p.timeouts.recycle)
        ((PoolBuilder.new cfg0 none).set_recycle_timeout none).build
        = Except.ok none :=
  none_timeout_preserved (PoolBuilder.new cfg0 none) (by decide)

/-- C7: each builder setter overwrites only its own field, leaves the
configuration and every other policy field unchanged, and accepts any value
(capacity 0 included); the setters are total, so no validation happens
before build. -/
theorem setters_update_only_their_field (b : PoolBuilder) (s : Nat)
    (t : Option Duration) :
    (b.set_max_size s).max_size = s ∧
    (b.set_max_size s).config = b.config ∧
    (b.set_max_size s).wait_timeout = b.wait_timeout ∧
    (b.set_max_size s).create_timeout = b.create_timeout ∧
    (b.set_max_size s).recycle_timeout = b.recycle_timeout ∧
    (b.set_wait_timeout t).wait_timeout = t ∧
    (b.set_wait_timeout t).config = b.config ∧
    (b.set_wait_timeout t).max_size = b.max_size ∧
    (b.set_wait_timeout t).create_timeout = b.create_timeout ∧
    (b.set_wait_timeout t).recycle_timeout = b.recycle_timeout ∧
    (b.set_create_timeout t).create_timeout = t ∧
    (b.set_create_timeout t).config = b.config ∧
    (b.set_create_timeout t).max_size = b.max_size ∧
    (b.set_create_timeout t).wait_timeout = b.wait_timeout ∧
    (b.set_create_timeout t).recycle_timeout = b.recycle_timeout ∧
    (b.set_recycle_timeout t).recycle_timeout = t ∧
    (b.set_recycle_timeout t).config = b.config ∧
    (b.set_recycle_timeout t).max_size = b.max_size ∧
    (b.set_recycle_timeout t).wait_timeout = b.wait_timeout ∧
    (b.set_recycle_timeout t).create_timeout = b.create_timeout ∧
    (b.set_max_size 0).max_size = 0 :=
  ⟨rfl, rfl, rfl, rfl, rfl, rfl, rfl, rfl, rfl, rfl, rfl, rfl, rfl, rfl,
    rfl, rfl, rfl, rfl, rfl, rfl, rfl⟩

/-- C8: create issues exactly one establishment attempt, on a clone of the
stored configuration, and returns the establishment result verbatim (so an
establishment error is surfaced unchanged, with no retry). -/
theorem create_single_attempt_verbatim
    (connect_with_config : Config → Except Error Connection)
    (m : OracleConnectionManager) :
    (m.create connect_with_config).2 = [m.config] ∧
    (m.create connect_with_config).1 = connect_with_config m.config ∧
    Config.clone m.config = m.config :=
  ⟨rfl, rfl, rfl⟩

/-- C9: the convenience trait is definitionally the builder path:
`into_pool` is `PoolBuilder::new(config).build()` and `into_pool_with_size`
is `PoolBuilder::new(config).max_size(n).build()`. -/
theorem config_ext_equivalent (config : Config) (n : Nat)
    (ap : Option { k : Nat // 0 < k }) :
    config.into_pool ap = (PoolBuilder.new config ap).build ∧
    config.into_pool_with_size n ap
        = ((PoolBuilder.new config ap).set_max_size n).build :=
  ⟨rfl, rfl⟩

/-- C10: `num_cpus` always returns at least 1 (detection yields a nonzero
count and the fallback is 4), so the default capacity is at least 4 and in
particular satisfies the capacity invariant of at least 1. -/
theorem num_cpus_positive_default_capacity (config : Config)
    (ap : Option { n : Nat // 0 < n }) :
    1 ≤ num_cpus ap ∧ 4 ≤ (PoolBuilder.new config ap).max_size ∧
    1 ≤ (PoolBuilder.new config ap).max_size := by
  have h1 : 1 ≤ num_cpus ap := by
    cases ap with
    | none => simp [num_cpus]
    | some p => simpa [num_cpus] using p.property
  have h2 : 4 ≤ num_cpus ap * 4 := by omega
  have h3 : 1 ≤ num_cpus ap * 4 := by omega
  exact ⟨h1, h2, h3⟩
